import Mathlib

/-!
Verification development for the nfr host agent.

The repository ships the configuration package (config/config.go) in
source form; the scope-matching engine, the query buffer and the failed
query store are described by the specification but their source files are
not part of this snapshot, so those components are modelled from the
specification text.  External library callees of config.go (the Go net
package parsers and the utils domain-name check) are modelled from their
documented behaviour.
-/

namespace Nfr

/-! ## Character and string helpers -/

/-- ASCII lower-casing of a single character, as used by case-insensitive
domain comparison. -/
def lowerChar (c : Char) : Char :=
  if 65 ≤ c.toNat ∧ c.toNat ≤ 90 then Char.ofNat (c.toNat + 32) else c

/-- Modelled from the spec: recognises a wildcard domain pattern, a string
of the form star-dot-suffix.  The pattern source (the groups package) is
not in this source snapshot. -/
def isWildcard (l : List Char) : Bool :=
  match l with
  | '*' :: '.' :: _ => true
  | _ => false

/-- Modelled from the spec: the suffix of a wildcard domain pattern. -/
def wildcardSuffix (l : List Char) : List Char :=
  match l with
  | '*' :: '.' :: s => s
  | _ => []

/-- Modelled from the spec: the domain match rule of the scope engine,
whose source (the groups package) is not in this source snapshot.  An
exact pattern matches only identical strings up to ASCII case; a wildcard
pattern star-dot-suffix matches fqdn when fqdn equals the suffix or fqdn
ends with a dot followed by the suffix. -/
def matchDomain (pattern fqdn : String) : Bool :=
  if isWildcard pattern.data then
    (fqdn.data == wildcardSuffix pattern.data) ||
      List.isSuffixOf ('.' :: wildcardSuffix pattern.data) fqdn.data
  else
    fqdn.data.map lowerChar == pattern.data.map lowerChar

/-! ## Scope groups and the scope decision -/

/-- Modelled from the spec: one named scope group.  The source of the
groups package is not in this snapshot; following the data model of the
specification, a network is represented by its membership predicate over
an abstract address type. -/
structure ScopeGroup (IPAddr : Type) where
  name : String
  inclusionNetworks : List (IPAddr → Bool)
  excludeNetworks : List (IPAddr → Bool)
  excludeDomainPatterns : List String

/-- Modelled from the spec: the per-group decision.  The source ip must be
inside one inclusion network, inside no exclude network, and the fqdn must
match no exclude domain pattern. -/
def groupAccepts {IPAddr : Type} (g : ScopeGroup IPAddr) (ip : IPAddr)
    (fqdn : String) : Bool :=
  g.inclusionNetworks.any (fun net => net ip)
    && !(g.excludeNetworks.any (fun net => net ip))
    && !(g.excludeDomainPatterns.any (fun pat => matchDomain pat fqdn))

/-- Modelled from the spec: the scope decision combines the per-group
decisions with logical OR over all groups. -/
def IsInScope {IPAddr : Type} (groups : List (ScopeGroup IPAddr))
    (ip : IPAddr) (fqdn : String) : Bool :=
  groups.any (fun g => groupAccepts g ip fqdn)

/-- Characterisation of the per-group decision as a proposition. -/
theorem groupAccepts_eq_true_iff {IPAddr : Type} (g : ScopeGroup IPAddr)
    (ip : IPAddr) (fqdn : String) :
    groupAccepts g ip fqdn = true ↔
      (∃ net, net ∈ g.inclusionNetworks ∧ net ip = true) ∧
      (∀ net, net ∈ g.excludeNetworks → net ip = false) ∧
      (∀ pat, pat ∈ g.excludeDomainPatterns → matchDomain pat fqdn = false) := by
  simp [groupAccepts, List.any_eq_true, Bool.and_eq_true,
    Bool.not_eq_true', List.any_eq_false, and_assoc]

/-! ## Address parsing, modelled from the Go net package

The functions net.ParseCIDR and net.ParseIP called by validateScopeConfig
in config.go are external library collaborators; the following definitions
model their documented behaviour (decimal and hex component parsing with
the internal overflow bound, dotted quad addresses, colon separated IPv6
addresses with one optional ellipsis and an optional trailing dotted
quad). -/

/-- Decides whether a character is an ASCII decimal digit. -/
def isDigitChar (c : Char) : Bool := 48 ≤ c.toNat && c.toNat ≤ 57

/-- Numeric value of an ASCII decimal digit. -/
def digitVal (c : Char) : Nat := c.toNat - 48

/-- Loop of the decimal parser: consumes leading digits, accumulating the
value, failing once the accumulator reaches the internal bound. -/
def dtoiLoop : List Char → Nat → Option (Nat × List Char)
  | [], n => some (n, [])
  | c :: rest, n =>
    if isDigitChar c then
      let n2 := n * 10 + digitVal c
      if 16777215 ≤ n2 then none else dtoiLoop rest n2
    else some (n, c :: rest)

/-- Decimal number parser of the Go net package: at least one digit is
required and the value may not reach the internal bound. -/
def dtoi (s : List Char) : Option (Nat × List Char) :=
  match s with
  | [] => none
  | c :: _ => if isDigitChar c then dtoiLoop s 0 else none

/-- Numeric value of an ASCII hex digit, if any. -/
def hexVal (c : Char) : Option Nat :=
  if 48 ≤ c.toNat ∧ c.toNat ≤ 57 then some (c.toNat - 48)
  else if 97 ≤ c.toNat ∧ c.toNat ≤ 102 then some (c.toNat - 87)
  else if 65 ≤ c.toNat ∧ c.toNat ≤ 70 then some (c.toNat - 55)
  else none

/-- Loop of the hex parser, analogous to the decimal loop. -/
def xtoiLoop : List Char → Nat → Option (Nat × List Char)
  | [], n => some (n, [])
  | c :: rest, n =>
    match hexVal c with
    | some d =>
      let n2 := n * 16 + d
      if 16777215 ≤ n2 then none else xtoiLoop rest n2
    | none => some (n, c :: rest)

/-- Hex number parser of the Go net package. -/
def xtoi (s : List Char) : Option (Nat × List Char) :=
  match s with
  | [] => none
  | c :: _ => if (hexVal c).isSome then xtoiLoop s 0 else none

/-- Parses a single dotted quad component, bounded by 255. -/
def parseV4Octet (s : List Char) : Option (Nat × List Char) :=
  match dtoi s with
  | some (n, rest) => if 255 < n then none else some (n, rest)
  | none => none

/-- Parses a given number of further octets, each preceded by a dot. -/
def parseDotOctets : Nat → List Char → Option (List Nat × List Char)
  | 0, s => some ([], s)
  | k + 1, s =>
    match s with
    | '.' :: s1 =>
      match parseV4Octet s1 with
      | some (n, s2) =>
        match parseDotOctets k s2 with
        | some (ns, s3) => some (n :: ns, s3)
        | none => none
      | none => none
    | _ => none

/-- Dotted quad IPv4 address parser of the Go net package: four octets
separated by dots, consuming the whole input. -/
def parseIPv4 (s : List Char) : Option (List Nat) :=
  match parseV4Octet s with
  | some (n, s1) =>
    match parseDotOctets 3 s1 with
    | some (ns, s2) => if s2.isEmpty then some (n :: ns) else none
    | none => none
  | none => none

/-- Final acceptance test of the IPv6 parser: the input is consumed and
the ellipsis is present exactly when fewer than sixteen bytes were
filled. -/
def ipv6Finish (s : List Char) (i : Nat) (ellipsis : Option Nat) : Bool :=
  s.isEmpty && (if i < 16 then ellipsis.isSome else ellipsis.isNone)

/-- Main loop of the IPv6 parser of the Go net package, with the byte
count i, the optional ellipsis position, and fuel bounding the number of
iterations (each iteration adds at least two bytes, so nine is enough). -/
def ipv6Loop : Nat → List Char → Nat → Option Nat → Bool
  | 0, _, _, _ => false
  | fuel + 1, s, i, ell =>
    if 16 ≤ i then ipv6Finish s i ell
    else
      match xtoi s with
      | none => false
      | some (n, rest) =>
        if 65535 < n then false
        else if rest.head? = some '.' then
          (if ell.isNone && i ≠ 12 then false
           else if 16 < i + 4 then false
           else if (parseIPv4 s).isSome then ipv6Finish [] (i + 4) ell
           else false)
        else
          match rest with
          | [] => ipv6Finish [] (i + 2) ell
          | ':' :: rest2 =>
            match rest2 with
            | [] => false
            | ':' :: rest3 =>
              if ell.isSome then false
              else if rest3.isEmpty then ipv6Finish [] (i + 2) (some (i + 2))
              else ipv6Loop fuel rest3 (i + 2) (some (i + 2))
            | _ => ipv6Loop fuel rest2 (i + 2) ell
          | _ => false

/-- IPv6 address parser of the Go net package, reduced to its success
predicate; a leading ellipsis is handled before the main loop. -/
def parseIPv6 (s : List Char) : Bool :=
  match s with
  | ':' :: ':' :: rest =>
    if rest.isEmpty then true else ipv6Loop 9 rest 0 (some 0)
  | _ => ipv6Loop 9 s 0 none

/-- Splits a character list at the first slash, if any. -/
def splitSlash : List Char → Option (List Char × List Char)
  | [] => none
  | c :: rest =>
    if c = '/' then some ([], rest)
    else
      match splitSlash rest with
      | some (a, b) => some (c :: a, b)
      | none => none

/-- Success predicate of net.ParseCIDR: an address part before the first
slash (IPv4 first, IPv6 otherwise) and a decimal mask consuming the rest,
bounded by eight times the address length. -/
def parseCIDRChars (s : List Char) : Bool :=
  match splitSlash s with
  | none => false
  | some (addr, mask) =>
    let v4 := (parseIPv4 addr).isSome
    let ipOk := v4 || parseIPv6 addr
    let iplen := if v4 then 4 else 16
    match dtoi mask with
    | some (n, rest) => ipOk && rest.isEmpty && n ≤ 8 * iplen
    | none => false

/-- First dot or colon of a character list, deciding the address family
in net.ParseIP. -/
def firstDotColon : List Char → Option Char
  | [] => none
  | c :: rest => if c = '.' ∨ c = ':' then some c else firstDotColon rest

/-- Success predicate of net.ParseIP: the first dot or colon selects the
dotted quad or the IPv6 parser. -/
def parseIPChars (s : List Char) : Bool :=
  match firstDotColon s with
  | some '.' => (parseIPv4 s).isSome
  | some ':' => parseIPv6 s
  | _ => false

/-! ## Domain name validity, modelled from utils.IsDomainName

The utils package of the repository is not part of this source snapshot;
its IsDomainName check is modelled from the spec: a valid DNS domain name
made of letter, digit, hyphen and underscore labels separated by dots,
following the classic Go net library validation (length bounds, no label
starting after a hyphen, at least one letter). -/

/-- Decides whether a character may start or extend a label as a letter
or underscore. -/
def isDomLetter (c : Char) : Bool :=
  (97 ≤ c.toNat && c.toNat ≤ 122) || (65 ≤ c.toNat && c.toNat ≤ 90) || c = '_'

/-- Label-structure loop of the domain validity check, carrying the
previous character, whether a letter was seen, and the current label
length. -/
def domLoop : List Char → Char → Bool → Nat → Bool
  | [], last, ok, partlen => (last != '-') && partlen ≤ 253 && ok
  | c :: rest, last, ok, partlen =>
    if isDomLetter c then domLoop rest c true (partlen + 1)
    else if isDigitChar c then domLoop rest c ok (partlen + 1)
    else if c = '-' then
      (if last = '.' then false else domLoop rest c ok (partlen + 1))
    else if c = '.' then
      (if last = '.' ∨ last = '-' then false
       else if 253 < partlen ∨ partlen = 0 then false
       else domLoop rest c ok 0)
    else false

/-- Modelled from the spec: the domain-name validity check of the utils
package, absent from this source snapshot. -/
def isDomainName (s : List Char) : Bool :=
  if s.length = 0 ∨ 254 < s.length then false
  else if s.length = 254 ∧ s.getLast? ≠ some '.' then false
  else domLoop s '.' false 0

/-- Strips one leading star-dot from a character list, as the Go call
strings.TrimPrefix with the wildcard marker does. -/
def trimStarDot (s : List Char) : List Char :=
  match s with
  | '*' :: '.' :: rest => rest
  | _ => s

/-- String wrapper of the CIDR parse success predicate. -/
def parseCIDRStr (s : String) : Bool := parseCIDRChars s.data

/-- String wrapper of the IP parse success predicate. -/
def parseIPStr (s : String) : Bool := parseIPChars s.data

/-- String wrapper of the domain validity predicate. -/
def isDomainNameStr (s : String) : Bool := isDomainName s.data

/-- String wrapper of the wildcard-marker strip. -/
def trimStarDotStr (s : String) : String := String.mk (trimStarDot s.data)

/-! ## Scope configuration validation, from config.go -/

/-- Raw scope group as unmarshalled from YAML, from the ScopeConfig field
of the Config struct in config.go. -/
structure RawGroup where
  networks : List String
  excludeNetworks : List String
  excludeDomains : List String
deriving DecidableEq

/-- Inclusion network check of validateScopeConfig: every entry must
parse as CIDR; the first offender yields the error. -/
def checkNetworks : List String → Option String
  | [] => none
  | n :: rest =>
    if parseCIDRStr n then checkNetworks rest
    else some ("parse scope config: " ++ n ++ " is not cidr")

/-- Exclude network check of validateScopeConfig: every entry must parse
as CIDR or as a single IP address. -/
def checkExcludeNetworks : List String → Option String
  | [] => none
  | n :: rest =>
    if parseCIDRStr n || parseIPStr n then checkExcludeNetworks rest
    else some ("parse scope config: " ++ n ++ " is not cidr nor ip")

/-- Exclude domain check of validateScopeConfig: every entry must be a
valid domain name as written or after stripping a leading wildcard
marker. -/
def checkExcludeDomains : List String → Option String
  | [] => none
  | d :: rest =>
    if !isDomainNameStr d && !isDomainNameStr (trimStarDotStr d) then
      some ("parse scope config: " ++ d ++ " is not valid domain name")
    else checkExcludeDomains rest

/-- Translation of validateScopeConfig from config.go, over the groups
map presented as an association list. -/
def validateScopeConfig : List (String × RawGroup) → Option String
  | [] => none
  | (_, g) :: rest =>
    match checkNetworks g.networks with
    | some e => some e
    | none =>
      match checkExcludeNetworks g.excludeNetworks with
      | some e => some e
      | none =>
        match checkExcludeDomains g.excludeDomains with
        | some e => some e
        | none => validateScopeConfig rest

/-- Denotation of the defaultScope YAML constant of config.go under the
Go yaml unmarshaller (an external collaborator): one group named default
with four inclusion networks, four wildcard exclude domains and no
exclude networks. -/
def defaultScopeGroups : List (String × RawGroup) :=
  [("default",
    { networks := ["10.0.0.0/8", "192.168.0.0/16", "172.16.0.0/12", "fc00::/7"],
      excludeNetworks := [],
      excludeDomains := ["*.arpa", "*.lan", "*.local", "*.internal"] })]

/-! ## Configuration model, from config.go -/

/-- Fields of the Config struct of config.go that the defaulting and
validation code touches; durations are in nanoseconds as the Go Duration
type, integers are modelled by Int. -/
structure Config where
  alphasocHost : String := ""
  alphasocAPIKey : String := ""
  networkInterface : String := ""
  networkProtocols : List String := []
  networkPort : Int := 0
  logFile : String := ""
  logLevel : String := ""
  dataFile : String := ""
  scopeFile : String := ""
  scopeGroups : List (String × RawGroup) := []
  eventsFile : String := ""
  eventsPollInterval : Int := 0
  queriesBufferSize : Int := 0
  queriesFlushInterval : Int := 0
  queriesFailedFile : String := ""

/-- Oracles for the effectful callees of config.go: interface lookup,
filename validation (with its console-output flag), the platform data,
the existence test for the default config location, and the file reads
combined with YAML unmarshalling. -/
structure SysEnv where
  interfaceExists : String → Bool
  filenameOk : String → Bool → Bool
  goosWindows : Bool
  appData : String
  defaultConfigExists : Bool
  readConfigFile : String → Except String Config
  readScopeFile : String → Except String (List (String × RawGroup))

/-- Translation of loadScopeConfig from config.go: with no scope file the
built-in default scope text is unmarshalled, otherwise the configured
file is read; the unmarshalled groups are installed on the configuration
and then validated.  The pair carries the updated configuration and the
error, mirroring the Go mutation plus error return. -/
def loadScopeConfig (env : SysEnv) (cfg : Config) :
    Config × Option String :=
  if cfg.scopeFile = "" then
    let cfg2 := { cfg with scopeGroups := defaultScopeGroups }
    (cfg2, validateScopeConfig cfg2.scopeGroups)
  else
    match env.readScopeFile cfg.scopeFile with
    | Except.error e => (cfg, some ("scope config: " ++ e))
    | Except.ok gs =>
      let cfg2 := { cfg with scopeGroups := gs }
      (cfg2, validateScopeConfig gs)

/-- Five seconds in nanoseconds. -/
def nanos5s : Int := 5000000000

/-- Translation of setDefaults from config.go: each unset field receives
its default, and the scope configuration is loaded with the error
discarded, as the Go method does. -/
def setDefaults (env : SysEnv) (cfg : Config) : Config :=
  let cfg1 := { cfg with
    alphasocHost :=
      if cfg.alphasocHost = "" then "https://api.alphasoc.net"
      else cfg.alphasocHost,
    networkProtocols :=
      if cfg.networkProtocols.isEmpty then ["udp"] else cfg.networkProtocols,
    networkPort := if cfg.networkPort = 0 then 53 else cfg.networkPort,
    eventsFile := if cfg.eventsFile = "" then "stderr" else cfg.eventsFile,
    logFile := if cfg.logFile = "" then "stdout" else cfg.logFile,
    logLevel := if cfg.logLevel = "" then "info" else cfg.logLevel,
    dataFile :=
      if cfg.dataFile = "" then
        (if env.goosWindows then env.appData ++ "/nfr.data"
         else "/run/nfr.data")
      else cfg.dataFile,
    eventsPollInterval :=
      if cfg.eventsPollInterval = 0 then 300000000000
      else cfg.eventsPollInterval,
    queriesBufferSize :=
      if cfg.queriesBufferSize = 0 then 65535 else cfg.queriesBufferSize,
    queriesFlushInterval :=
      if cfg.queriesFlushInterval = 0 then 30000000000
      else cfg.queriesFlushInterval }
  (loadScopeConfig env cfg1).1

/-- Protocol entries check of the validation loop in config.go. -/
def protocolsValid (ps : List String) : Bool :=
  ps.all (fun p => p = "udp" || p = "tcp")

/-- Translation of the validate method of config.go, with the checks in
source order; the result is the first error, if any. -/
def validate (env : SysEnv) (cfg : Config) : Option String :=
  if cfg.networkInterface = "" then some "config: empty network.interface"
  else if env.interfaceExists cfg.networkInterface = false then
    some "config: can not open interface"
  else if cfg.networkProtocols.isEmpty = true then
    some "config: empty protocol list"
  else if 2 < cfg.networkProtocols.length then
    some "config: too many protocols in list"
  else if protocolsValid cfg.networkProtocols = false then
    some "config: invalid protocol name"
  else if cfg.networkPort < 0 ∨ 65535 < cfg.networkPort then
    some "config: invalid port number"
  else if env.filenameOk cfg.logFile true = false then
    some "config: invalid log file"
  else if ¬ (cfg.logLevel = "debug" ∨ cfg.logLevel = "info" ∨
      cfg.logLevel = "warn" ∨ cfg.logLevel = "error") then
    some "config: invalid log level"
  else if env.filenameOk cfg.dataFile false = false then
    some "config: invalid data file"
  else if cfg.eventsFile ≠ "" ∧ env.filenameOk cfg.eventsFile true = false then
    some "config: invalid events file"
  else if cfg.eventsPollInterval < nanos5s then
    some "config: events poll interval must be at least 5s"
  else if cfg.queriesBufferSize < 64 then
    some "config: queries buffer size must be at least 64"
  else if cfg.queriesFlushInterval < nanos5s then
    some "config: queries flush interval must be at least 5s"
  else if cfg.queriesFailedFile ≠ "" ∧
      env.filenameOk cfg.queriesFailedFile false = false then
    some "config: invalid failed queries file"
  else none

/-- Insertion step of the protocol sort standing in for sort.Strings. -/
def insertStr (s : String) : List String → List String
  | [] => [s]
  | t :: rest => if s ≤ t then s :: t :: rest else t :: insertStr s rest

/-- Sorting of the protocol list, standing in for sort.Strings. -/
def sortStrings : List String → List String
  | [] => []
  | s :: rest => insertStr s (sortStrings rest)

/-- Translation of the Read function of config.go: read and unmarshal the
file, load and validate the scope configuration, fill defaults, sort the
protocols, and validate. -/
def Read (env : SysEnv) (file : String) : Except String Config :=
  match env.readConfigFile file with
  | Except.error e => Except.error e
  | Except.ok cfg0 =>
    match loadScopeConfig env cfg0 with
    | (_, some e) => Except.error e
    | (cfg1, none) =>
      let cfg2 := setDefaults env cfg1
      let cfg3 := { cfg2 with
        networkProtocols := sortStrings cfg2.networkProtocols }
      match validate env cfg3 with
      | some e => Except.error e
      | none => Except.ok cfg3

/-- Translation of the New function of config.go: an explicit file is
read; otherwise the default location is read when it exists; otherwise
the defaults-only configuration is returned with no error and no
validation. -/
def New (env : SysEnv) (file : String) : Except String Config :=
  if file ≠ "" then Read env file
  else if env.defaultConfigExists then Read env "/etc/nfr/config.yml"
  else Except.ok (setDefaults env {})

/-! ## Query buffer, modelled from the spec

The buffer source is not part of this snapshot.  Push appends under
exclusive access and signals a flush once the length reaches capacity; a
flush drains the buffer by swapping in a fresh empty one.  The run
function processes a sequence of pushes, returning the final buffer
content and the drained batches in flush order. -/

/-- Modelled from the spec: a sequence of pushes into the query buffer
with the given capacity, draining the buffer whenever a push fills it;
returns the remaining buffer and the list of drained batches. -/
def pushRun {Q : Type} (cap : Nat) : List Q → List Q → List Q × List (List Q)
  | buf, [] => (buf, [])
  | buf, q :: qs =>
    let buf2 := buf ++ [q]
    if cap ≤ buf2.length then
      let r := pushRun cap [] qs
      (r.1, buf2 :: r.2)
    else pushRun cap buf2 qs

/-! ## Flusher and failed query store, modelled from the spec

The flusher source is not part of this snapshot.  On a flush trigger the
batches of the failed query store are resent oldest first, each removed
exactly when its resend succeeds; then the newly drained batch is sent
and appended to the store on failure. -/

/-- Modelled from the spec: one flush cycle over the failed query store,
with the delivery outcome given by the send oracle.  The first component
lists the batches handed to delivery in order; the second is the store
content after the cycle. -/
def flushCycle {Q : Type} (send : List Q → Bool) :
    List (List Q) → List Q → List (List Q) × List (List Q)
  | [], newBatch => ([newBatch], if send newBatch then [] else [newBatch])
  | b :: rest, newBatch =>
    let r := flushCycle send rest newBatch
    (b :: r.1, if send b then r.2 else b :: r.2)

/-- Permutation invariance of the Boolean any over a list. -/
theorem any_perm_eq {α : Type} {l1 l2 : List α} (p : α → Bool)
    (h : l1.Perm l2) : l1.any p = l2.any p := by
  cases hb : l2.any p with
  | true =>
    rcases List.any_eq_true.mp hb with ⟨x, hx, hpx⟩
    exact List.any_eq_true.mpr ⟨x, h.mem_iff.mpr hx, hpx⟩
  | false =>
    cases hb2 : l1.any p with
    | false => rfl
    | true =>
      rcases List.any_eq_true.mp hb2 with ⟨x, hx, hpx⟩
      have : l2.any p = true := List.any_eq_true.mpr ⟨x, h.mem_iff.mp hx, hpx⟩
      rw [hb] at this
      exact this.symm

/-! ## Claim theorems -/

/-- C1: the query is in scope exactly when some group includes the source
ip, excludes it by no network, and excludes the fqdn by no pattern; the
per-group decisions are combined by OR and the result does not depend on
the iteration order over groups. -/
theorem claim_c1_scope_decision {IPAddr : Type}
    (groups groups2 : List (ScopeGroup IPAddr)) (ip : IPAddr) (fqdn : String)
    (hperm : groups.Perm groups2) :
    (IsInScope groups ip fqdn = true ↔
      ∃ g, g ∈ groups ∧
        (∃ net, net ∈ g.inclusionNetworks ∧ net ip = true) ∧
        (∀ net, net ∈ g.excludeNetworks → net ip = false) ∧
        (∀ pat, pat ∈ g.excludeDomainPatterns → matchDomain pat fqdn = false)) ∧
    IsInScope groups ip fqdn = IsInScope groups2 ip fqdn := by
  constructor
  · rw [IsInScope, List.any_eq_true]
    constructor
    · rintro ⟨g, hg, hacc⟩
      exact ⟨g, hg, (groupAccepts_eq_true_iff g ip fqdn).mp hacc⟩
    · rintro ⟨g, hg, h1, h2, h3⟩
      exact ⟨g, hg, (groupAccepts_eq_true_iff g ip fqdn).mpr ⟨h1, h2, h3⟩⟩
  · exact any_perm_eq _ hperm

/-- Concrete group used by witnesses: accepts source ip 5. -/
def wG1 : ScopeGroup Nat :=
  ⟨"g1", [fun ip => ip == 5], [], []⟩

/-- Concrete group used by witnesses: accepts source ip 7, excludes ip 5
and the local wildcard. -/
def wG2 : ScopeGroup Nat :=
  ⟨"g2", [fun ip => ip == 7], [fun ip => ip == 5], ["*.local"]⟩

/-- Witness for C1 at a concrete pair of swapped group lists. -/
theorem claim_c1_witness :
    IsInScope [wG1, wG2] 5 "a.com" = IsInScope [wG2, wG1] 5 "a.com" :=
  (claim_c1_scope_decision [wG1, wG2] [wG2, wG1] 5 "a.com"
    (List.Perm.swap wG2 wG1 [])).2

/-- C2: a wildcard pattern matches exactly the suffix itself and strings
ending in a dot followed by the suffix; an exact pattern matches exactly
the strings identical to it up to ASCII case; with the concrete behaviour
of the local wildcard and of the exact pattern site.net. -/
theorem claim_c2_domain_match (pattern fqdn : String) :
    (∀ suffix, pattern.data = '*' :: '.' :: suffix →
      (matchDomain pattern fqdn = true ↔
        fqdn.data = suffix ∨ ('.' :: suffix) <:+ fqdn.data)) ∧
    (isWildcard pattern.data = false →
      (matchDomain pattern fqdn = true ↔
        fqdn.data.map lowerChar = pattern.data.map lowerChar)) ∧
    matchDomain "*.local" "a.local" = true ∧
    matchDomain "*.local" "a.b.local" = true ∧
    matchDomain "*.local" "locals" = false ∧
    (matchDomain "site.net" fqdn = true ↔
      fqdn.data.map lowerChar = "site.net".data) := by
  refine ⟨?_, ?_, by decide, by decide, by decide, ?_⟩
  · intro suffix hs
    have hw : isWildcard pattern.data = true := by rw [hs]; rfl
    have hsuf : wildcardSuffix pattern.data = suffix := by
      rw [hs]; simp [wildcardSuffix]
    rw [matchDomain, if_pos hw, hsuf]
    simp [List.isSuffixOf_iff_suffix]
  · intro hnw
    rw [matchDomain, if_neg (by simp [hnw])]
    simp
  · have hnw : isWildcard ("site.net" : String).data = false := by decide
    rw [matchDomain, if_neg (by simp [hnw])]
    rw [show List.map lowerChar ("site.net" : String).data =
      ("site.net" : String).data from by decide]
    exact beq_iff_eq

/-- Witness for C2 at the local wildcard and a two-label host name. -/
theorem claim_c2_witness : matchDomain "*.local" "a.b.local" = true :=
  ((claim_c2_domain_match "*.local" "a.b.local").1 "local".data (by decide)).mpr
    (Or.inr ⟨"a.b".data, by decide⟩)

/-- C3: a source ip contained in no inclusion network of any group is out
of scope for every fqdn. -/
theorem claim_c3_default_deny {IPAddr : Type}
    (groups : List (ScopeGroup IPAddr)) (ip : IPAddr) (fqdn : String)
    (h : ∀ g, g ∈ groups → ∀ net, net ∈ g.inclusionNetworks → net ip = false) :
    IsInScope groups ip fqdn = false := by
  rw [IsInScope, List.any_eq_false]
  intro g hg
  have hincl : g.inclusionNetworks.any (fun net => net ip) = false := by
    rw [List.any_eq_false]
    intro net hnet
    simp [h g hg net hnet]
  simp [groupAccepts, hincl]

/-- Witness for C3 at an ip matching no inclusion network. -/
theorem claim_c3_witness : IsInScope [wG1, wG2] 3 "a.com" = false :=
  claim_c3_default_deny [wG1, wG2] 3 "a.com" (by decide)

/-- Delivery order of a flush cycle: the stored batches oldest first,
then the newly drained batch. -/
theorem flushCycle_trace {Q : Type} (send : List Q → Bool)
    (store : List (List Q)) (newBatch : List Q) :
    (flushCycle send store newBatch).1 = store ++ [newBatch] := by
  induction store with
  | nil => rfl
  | cons b rest ih => simp [flushCycle, ih]

/-- Store content after a flush cycle: the stored batches whose resend
failed, in order, then the new batch when its send failed. -/
theorem flushCycle_store {Q : Type} (send : List Q → Bool)
    (store : List (List Q)) (newBatch : List Q) :
    (flushCycle send store newBatch).2 =
      store.filter (fun b => !send b) ++
        (if send newBatch then [] else [newBatch]) := by
  induction store with
  | nil => simp [flushCycle]
  | cons b rest ih => cases h : send b <;> simp [flushCycle, h, ih]

/-- C5: on a flush cycle every stored batch is handed to delivery before
the newly drained batch, in enqueue order; the resulting store keeps
exactly the batches whose send failed, a successfully resent batch is
gone, and every record still stored belongs to a batch whose send
failed. -/
theorem claim_c5_flush_retry {Q : Type} (send : List Q → Bool)
    (store : List (List Q)) (newBatch : List Q) :
    (flushCycle send store newBatch).1 = store ++ [newBatch] ∧
    (flushCycle send store newBatch).2 =
      store.filter (fun b => !send b) ++
        (if send newBatch then [] else [newBatch]) ∧
    (∀ b, b ∈ store → send b = true →
      b ∉ (flushCycle send store newBatch).2) ∧
    (∀ bq, bq ∈ (flushCycle send store newBatch).2 →
      send bq = false ∧ (bq ∈ store ∨ bq = newBatch)) := by
  have htrace := flushCycle_trace send store newBatch
  have hstore := flushCycle_store send store newBatch
  refine ⟨htrace, hstore, ?_, ?_⟩
  · intro b hb hsend hmem
    rw [hstore] at hmem
    rcases List.mem_append.mp hmem with h1 | h2
    · have := (List.mem_filter.mp h1).2
      rw [hsend] at this
      exact absurd this (by decide)
    · by_cases hnb : send newBatch = true
      · rw [if_pos hnb] at h2
        exact absurd h2 (List.not_mem_nil b)
      · rw [if_neg hnb] at h2
        have hbn : b = newBatch := List.mem_singleton.mp h2
        rw [hbn] at hsend
        exact hnb hsend
  · intro bq hbq
    rw [hstore] at hbq
    rcases List.mem_append.mp hbq with h1 | h2
    · have hf := List.mem_filter.mp h1
      refine ⟨?_, Or.inl hf.1⟩
      have h2 := hf.2
      cases hsb : send bq
      · rfl
      · rw [hsb] at h2
        exact absurd h2 (by decide)
    · by_cases hnb : send newBatch = true
      · rw [if_pos hnb] at h2
        exact absurd h2 (List.not_mem_nil bq)
      · rw [if_neg hnb] at h2
        have hbn : bq = newBatch := List.mem_singleton.mp h2
        refine ⟨?_, Or.inr hbn⟩
        rw [hbn]
        simpa using hnb

/-- Concrete delivery oracle for witnesses: a send succeeds exactly for
batches of one record. -/
def wSend : List Nat → Bool := fun b => b.length == 1

/-- Witness for C5: the successfully resent singleton batch is gone from
the store. -/
theorem claim_c5_witness : ([3] : List Nat) ∉ (flushCycle wSend [[1, 2], [3]] [4]).2 :=
  (claim_c5_flush_retry wSend [[1, 2], [3]] [4]).2.2.1 [3] (by decide) (by decide)

/-- Run lemma for the buffer: pushes that exactly fill the remaining
capacity drain once, into a single batch in insertion order. -/
theorem pushRun_fills {Q : Type} (cap : Nat) :
    ∀ (qs : List Q) (buf : List Q), buf.length + qs.length = cap →
      buf.length < cap → pushRun cap buf qs = ([], [buf ++ qs]) := by
  intro qs
  induction qs with
  | nil =>
    intro buf h hlt
    exfalso
    simp at h
    omega
  | cons q qs2 ih =>
    intro buf h hlt
    have h1 : (buf ++ [q]).length = buf.length + 1 := by simp
    have h2 : buf.length + (qs2.length + 1) = cap := by simpa using h
    simp only [pushRun]
    by_cases hc : cap ≤ (buf ++ [q]).length
    · rw [if_pos hc]
      rw [h1] at hc
      have hq : qs2 = [] := List.length_eq_zero.mp (by omega)
      subst hq
      simp [pushRun]
    · rw [if_neg hc]
      rw [h1] at hc
      have h3 : (buf ++ [q]).length + qs2.length = cap := by rw [h1]; omega
      have h4 : (buf ++ [q]).length < cap := by rw [h1]; omega
      rw [ih (buf ++ [q]) h3 h4]
      simp

/-- C6: pushing exactly the buffer capacity of queries into an empty
buffer triggers exactly one flush whose batch is the whole push sequence
in insertion order, leaving the buffer empty. -/
theorem claim_c6_buffer_flush {Q : Type} (bufferSize : Nat) (qs : List Q)
    (hpos : 0 < bufferSize) (hlen : qs.length = bufferSize) :
    pushRun bufferSize [] qs = ([], [qs]) := by
  have h := pushRun_fills bufferSize qs [] (by simpa using hlen) (by simpa using hpos)
  simpa using h

/-- Witness for C6 at capacity two. -/
theorem claim_c6_witness : pushRun 2 ([] : List Nat) [10, 20] = ([], [[10, 20]]) :=
  claim_c6_buffer_flush 2 [10, 20] (by decide) (by decide)

/-- Success of the inclusion network check characterised entrywise. -/
theorem checkNetworks_eq_none_iff (ns : List String) :
    checkNetworks ns = none ↔ ∀ n, n ∈ ns → parseCIDRStr n = true := by
  induction ns with
  | nil => simp [checkNetworks]
  | cons n rest ih => cases h : parseCIDRStr n <;> simp [checkNetworks, h, ih]

/-- Success of the exclude network check characterised entrywise. -/
theorem checkExcludeNetworks_eq_none_iff (ns : List String) :
    checkExcludeNetworks ns = none ↔
      ∀ n, n ∈ ns → (parseCIDRStr n = true ∨ parseIPStr n = true) := by
  induction ns with
  | nil => simp [checkExcludeNetworks]
  | cons n rest ih =>
    by_cases h : parseCIDRStr n = true ∨ parseIPStr n = true
    · have hb : (parseCIDRStr n || parseIPStr n) = true := by
        rcases h with h | h <;> simp [h]
      simp [checkExcludeNetworks, hb, ih, h]
    · have h1 : parseCIDRStr n = false := by
        cases hx : parseCIDRStr n
        · rfl
        · exact absurd (Or.inl hx) h
      have h2 : parseIPStr n = false := by
        cases hx : parseIPStr n
        · rfl
        · exact absurd (Or.inr hx) h
      simp [checkExcludeNetworks, h1, h2, h]

/-- Success of the exclude domain check characterised entrywise. -/
theorem checkExcludeDomains_eq_none_iff (ds : List String) :
    checkExcludeDomains ds = none ↔
      ∀ d, d ∈ ds →
        (isDomainNameStr d = true ∨ isDomainNameStr (trimStarDotStr d) = true) := by
  induction ds with
  | nil => simp [checkExcludeDomains]
  | cons d rest ih =>
    by_cases h : isDomainNameStr d = true ∨ isDomainNameStr (trimStarDotStr d) = true
    · have hb : (!isDomainNameStr d && !isDomainNameStr (trimStarDotStr d)) = false := by
        rcases h with h | h <;> simp [h]
      simp [checkExcludeDomains, hb, ih, h]
    · have h1 : isDomainNameStr d = false := by
        cases hx : isDomainNameStr d
        · rfl
        · exact absurd (Or.inl hx) h
      have h2 : isDomainNameStr (trimStarDotStr d) = false := by
        cases hx : isDomainNameStr (trimStarDotStr d)
        · rfl
        · exact absurd (Or.inr hx) h
      simp [checkExcludeDomains, h1, h2, h]

/-- Success of the whole scope validation characterised groupwise. -/
theorem validateScopeConfig_eq_none_iff (groups : List (String × RawGroup)) :
    validateScopeConfig groups = none ↔
      ∀ g, g ∈ groups →
        (∀ n, n ∈ g.2.networks → parseCIDRStr n = true) ∧
        (∀ n, n ∈ g.2.excludeNetworks →
          (parseCIDRStr n = true ∨ parseIPStr n = true)) ∧
        (∀ d, d ∈ g.2.excludeDomains →
          (isDomainNameStr d = true ∨
            isDomainNameStr (trimStarDotStr d) = true)) := by
  induction groups with
  | nil => simp [validateScopeConfig]
  | cons g rest ih =>
    obtain ⟨nm, grp⟩ := g
    have hstep : validateScopeConfig ((nm, grp) :: rest) = none ↔
        (checkNetworks grp.networks = none ∧
         checkExcludeNetworks grp.excludeNetworks = none ∧
         checkExcludeDomains grp.excludeDomains = none ∧
         validateScopeConfig rest = none) := by
      cases h1 : checkNetworks grp.networks <;>
        cases h2 : checkExcludeNetworks grp.excludeNetworks <;>
          cases h3 : checkExcludeDomains grp.excludeDomains <;>
            simp [validateScopeConfig, h1, h2, h3]
    rw [hstep, checkNetworks_eq_none_iff, checkExcludeNetworks_eq_none_iff,
      checkExcludeDomains_eq_none_iff, ih]
    simp only [List.forall_mem_cons]
    tauto

/-- C4: scope validation succeeds exactly when every inclusion entry
parses as CIDR, every exclude network entry parses as CIDR or IP, and
every exclude domain is valid as written or after stripping a leading
wildcard marker; scope loading surfaces exactly the validation error; and
the scope decision itself is total. -/
theorem claim_c4_scope_validation :
    (∀ groups : List (String × RawGroup),
      (validateScopeConfig groups = none ↔
        ∀ g, g ∈ groups →
          (∀ n, n ∈ g.2.networks → parseCIDRStr n = true) ∧
          (∀ n, n ∈ g.2.excludeNetworks →
            (parseCIDRStr n = true ∨ parseIPStr n = true)) ∧
          (∀ d, d ∈ g.2.excludeDomains →
            (isDomainNameStr d = true ∨
              isDomainNameStr (trimStarDotStr d) = true)))) ∧
    (∀ (env : SysEnv) (cfg : Config) (gs : List (String × RawGroup)),
      cfg.scopeFile ≠ "" →
      env.readScopeFile cfg.scopeFile = Except.ok gs →
      (loadScopeConfig env cfg).2 = validateScopeConfig gs) ∧
    (∀ (env : SysEnv) (cfg : Config), cfg.scopeFile = "" →
      (loadScopeConfig env cfg).2 = validateScopeConfig defaultScopeGroups) ∧
    (∀ (IPAddr : Type) (groups : List (ScopeGroup IPAddr)) (ip : IPAddr)
      (fqdn : String),
      IsInScope groups ip fqdn = true ∨ IsInScope groups ip fqdn = false) := by
  refine ⟨validateScopeConfig_eq_none_iff, ?_, ?_, ?_⟩
  · intro env cfg gs hne hread
    simp [loadScopeConfig, hne, hread]
  · intro env cfg h
    simp [loadScopeConfig, h]
  · intro IPAddr groups ip fqdn
    cases h : IsInScope groups ip fqdn
    · exact Or.inr rfl
    · exact Or.inl rfl

/-- Concrete environment for witnesses: every oracle is benign, no
default config file exists, file reads fail. -/
def wEnv : SysEnv :=
  ⟨fun _ => true, fun _ _ => true, false, "", false,
   fun _ => Except.error "no file", fun _ => Except.error "no file"⟩

/-- Witness for C4: a concrete well-formed group validates, and loading
with no scope file validates the default scope. -/
theorem claim_c4_witness :
    validateScopeConfig [("g", ⟨["10.0.0.0/8"], ["192.168.1.1"], ["*.lan"]⟩)] = none ∧
    (loadScopeConfig wEnv {}).2 = validateScopeConfig defaultScopeGroups :=
  ⟨(claim_c4_scope_validation.1 _).mpr (by decide),
   claim_c4_scope_validation.2.2.1 wEnv {} rfl⟩

/-- Scope loading changes only the scope groups: the fields used by the
defaulting and validation claims are preserved. -/
theorem loadScopeConfig_preserves (env : SysEnv) (cfg : Config) :
    ((loadScopeConfig env cfg).1).networkInterface = cfg.networkInterface ∧
    ((loadScopeConfig env cfg).1).queriesBufferSize = cfg.queriesBufferSize ∧
    ((loadScopeConfig env cfg).1).eventsPollInterval = cfg.eventsPollInterval ∧
    ((loadScopeConfig env cfg).1).queriesFlushInterval = cfg.queriesFlushInterval := by
  by_cases h : cfg.scopeFile = ""
  · simp [loadScopeConfig, h]
  · rcases hr : env.readScopeFile cfg.scopeFile with e | gs <;>
      simp [loadScopeConfig, h, hr]

/-- Defaulting of the query buffer size. -/
theorem setDefaults_queriesBufferSize (env : SysEnv) (cfg : Config) :
    (setDefaults env cfg).queriesBufferSize =
      if cfg.queriesBufferSize = 0 then 65535 else cfg.queriesBufferSize := by
  simp only [setDefaults]
  rw [(loadScopeConfig_preserves _ _).2.1]

/-- Defaulting of the events poll interval. -/
theorem setDefaults_eventsPollInterval (env : SysEnv) (cfg : Config) :
    (setDefaults env cfg).eventsPollInterval =
      if cfg.eventsPollInterval = 0 then 300000000000
      else cfg.eventsPollInterval := by
  simp only [setDefaults]
  rw [(loadScopeConfig_preserves _ _).2.2.1]

/-- Defaulting of the flush interval. -/
theorem setDefaults_queriesFlushInterval (env : SysEnv) (cfg : Config) :
    (setDefaults env cfg).queriesFlushInterval =
      if cfg.queriesFlushInterval = 0 then 30000000000
      else cfg.queriesFlushInterval := by
  simp only [setDefaults]
  rw [(loadScopeConfig_preserves _ _).2.2.2]

/-- Defaulting never touches the network interface. -/
theorem setDefaults_networkInterface (env : SysEnv) (cfg : Config) :
    (setDefaults env cfg).networkInterface = cfg.networkInterface := by
  simp only [setDefaults]
  rw [(loadScopeConfig_preserves _ _).1]

/-- All validation checks other than the buffer size check pass. -/
def checksExceptBufferSize (env : SysEnv) (cfg : Config) : Prop :=
  ¬ cfg.networkInterface = "" ∧
  ¬ env.interfaceExists cfg.networkInterface = false ∧
  ¬ cfg.networkProtocols.isEmpty = true ∧
  ¬ 2 < cfg.networkProtocols.length ∧
  ¬ protocolsValid cfg.networkProtocols = false ∧
  ¬ (cfg.networkPort < 0 ∨ 65535 < cfg.networkPort) ∧
  ¬ env.filenameOk cfg.logFile true = false ∧
  ¬ ¬ (cfg.logLevel = "debug" ∨ cfg.logLevel = "info" ∨
    cfg.logLevel = "warn" ∨ cfg.logLevel = "error") ∧
  ¬ env.filenameOk cfg.dataFile false = false ∧
  ¬ (cfg.eventsFile ≠ "" ∧ env.filenameOk cfg.eventsFile true = false) ∧
  ¬ cfg.eventsPollInterval < nanos5s ∧
  ¬ cfg.queriesFlushInterval < nanos5s ∧
  ¬ (cfg.queriesFailedFile ≠ "" ∧
    env.filenameOk cfg.queriesFailedFile false = false)

/-- C7: an unset buffer size defaults to 65535, and when every other
check passes the validation fails exactly when the buffer size is below
64. -/
theorem claim_c7_buffer_size (env : SysEnv) (cfg : Config) :
    ((setDefaults env cfg).queriesBufferSize =
      if cfg.queriesBufferSize = 0 then 65535 else cfg.queriesBufferSize) ∧
    (checksExceptBufferSize env cfg →
      (validate env cfg ≠ none ↔ cfg.queriesBufferSize < 64)) := by
  refine ⟨setDefaults_queriesBufferSize env cfg, ?_⟩
  rintro ⟨h1, h2, h3, h4, h5, h6, h7, h8, h9, h10, h11, h12, h13⟩
  rw [validate, if_neg h1, if_neg h2, if_neg h3, if_neg h4, if_neg h5,
    if_neg h6, if_neg h7, if_neg h8, if_neg h9, if_neg h10, if_neg h11]
  by_cases hb : cfg.queriesBufferSize < 64
  · simp [hb]
  · rw [if_neg hb, if_neg h12, if_neg h13]
    simp [hb]

/-- Concrete configuration for the C7 witness: all checks benign except a
buffer size of 10. -/
def wCfg7 : Config :=
  { networkInterface := "eth0", networkProtocols := ["udp"],
    networkPort := 53, logFile := "stdout", logLevel := "info",
    dataFile := "/run/nfr.data", eventsFile := "stderr",
    eventsPollInterval := 300000000000, queriesBufferSize := 10,
    queriesFlushInterval := 30000000000 }

/-- Witness for C7: a buffer size of 10 is rejected. -/
theorem claim_c7_witness : validate wEnv wCfg7 ≠ none :=
  ((claim_c7_buffer_size wEnv wCfg7).2
    (by unfold checksExceptBufferSize; decide)).mpr (by decide)

/-- All validation checks other than the two interval checks pass. -/
def checksExceptIntervals (env : SysEnv) (cfg : Config) : Prop :=
  ¬ cfg.networkInterface = "" ∧
  ¬ env.interfaceExists cfg.networkInterface = false ∧
  ¬ cfg.networkProtocols.isEmpty = true ∧
  ¬ 2 < cfg.networkProtocols.length ∧
  ¬ protocolsValid cfg.networkProtocols = false ∧
  ¬ (cfg.networkPort < 0 ∨ 65535 < cfg.networkPort) ∧
  ¬ env.filenameOk cfg.logFile true = false ∧
  ¬ ¬ (cfg.logLevel = "debug" ∨ cfg.logLevel = "info" ∨
    cfg.logLevel = "warn" ∨ cfg.logLevel = "error") ∧
  ¬ env.filenameOk cfg.dataFile false = false ∧
  ¬ (cfg.eventsFile ≠ "" ∧ env.filenameOk cfg.eventsFile true = false) ∧
  ¬ cfg.queriesBufferSize < 64 ∧
  ¬ (cfg.queriesFailedFile ≠ "" ∧
    env.filenameOk cfg.queriesFailedFile false = false)

/-- C8: an unset poll interval defaults to five minutes and an unset
flush interval to thirty seconds, and when every other check passes the
validation fails exactly when one of the two intervals is below five
seconds. -/
theorem claim_c8_interval_defaults (env : SysEnv) (cfg : Config) :
    ((setDefaults env cfg).eventsPollInterval =
      if cfg.eventsPollInterval = 0 then 300000000000
      else cfg.eventsPollInterval) ∧
    ((setDefaults env cfg).queriesFlushInterval =
      if cfg.queriesFlushInterval = 0 then 30000000000
      else cfg.queriesFlushInterval) ∧
    (checksExceptIntervals env cfg →
      (validate env cfg ≠ none ↔
        (cfg.eventsPollInterval < nanos5s ∨
          cfg.queriesFlushInterval < nanos5s))) := by
  refine ⟨setDefaults_eventsPollInterval env cfg,
    setDefaults_queriesFlushInterval env cfg, ?_⟩
  rintro ⟨h1, h2, h3, h4, h5, h6, h7, h8, h9, h10, h11, h12⟩
  rw [validate, if_neg h1, if_neg h2, if_neg h3, if_neg h4, if_neg h5,
    if_neg h6, if_neg h7, if_neg h8, if_neg h9, if_neg h10]
  by_cases hp : cfg.eventsPollInterval < nanos5s
  · simp [hp]
  · rw [if_neg hp, if_neg h11]
    by_cases hf : cfg.queriesFlushInterval < nanos5s
    · simp [hp, hf]
    · rw [if_neg hf, if_neg h12]
      simp [hp, hf]

/-- Concrete configuration for the C8 witness: all checks benign except a
poll interval of one nanosecond. -/
def wCfg8 : Config :=
  { networkInterface := "eth0", networkProtocols := ["udp"],
    networkPort := 53, logFile := "stdout", logLevel := "info",
    dataFile := "/run/nfr.data", eventsFile := "stderr",
    eventsPollInterval := 1, queriesBufferSize := 100,
    queriesFlushInterval := 30000000000 }

/-- Witness for C8: a one nanosecond poll interval is rejected. -/
theorem claim_c8_witness : validate wEnv wCfg8 ≠ none :=
  ((claim_c8_interval_defaults wEnv wCfg8).2.2
    (by unfold checksExceptIntervals; decide)).mpr (Or.inl (by decide))

/-- C9: with no scope file configured, loading installs the built-in
default scope of the single group named default, with its four inclusion
networks, no exclude networks and four wildcard exclude domains, with no
error; the default scope passes validation. -/
theorem claim_c9_default_scope (env : SysEnv) (cfg : Config)
    (h : cfg.scopeFile = "") :
    loadScopeConfig env cfg = ({ cfg with scopeGroups := defaultScopeGroups }, none) ∧
    defaultScopeGroups =
      [("default",
        { networks := ["10.0.0.0/8", "192.168.0.0/16", "172.16.0.0/12", "fc00::/7"],
          excludeNetworks := [],
          excludeDomains := ["*.arpa", "*.lan", "*.local", "*.internal"] })] ∧
    validateScopeConfig defaultScopeGroups = none := by
  have hv : validateScopeConfig defaultScopeGroups = none := by decide
  refine ⟨?_, rfl, hv⟩
  rw [loadScopeConfig, if_pos h]
  simp [hv]

/-- Witness for C9 at the empty configuration. -/
theorem claim_c9_witness :
    loadScopeConfig wEnv {} = ({ scopeGroups := defaultScopeGroups }, none) :=
  (claim_c9_default_scope wEnv {} rfl).1

/-- C10: with no explicit file and no config file at the default
location, New returns the defaults-only configuration with no error and
without validating it, although validation of that very configuration
would fail on the empty network interface. -/
theorem claim_c10_new_without_file (env : SysEnv)
    (h : env.defaultConfigExists = false) :
    New env "" = Except.ok (setDefaults env {}) ∧
    (setDefaults env {}).networkInterface = "" ∧
    validate env (setDefaults env {}) = some "config: empty network.interface" := by
  have hni : (setDefaults env ({} : Config)).networkInterface = "" :=
    setDefaults_networkInterface env {}
  refine ⟨?_, hni, ?_⟩
  · rw [New]
    simp [h]
  · rw [validate, if_pos hni]

/-- Witness for C10 at the benign environment without a default config
file. -/
theorem claim_c10_witness : New wEnv "" = Except.ok (setDefaults wEnv {}) :=
  (claim_c10_new_without_file wEnv rfl).1
